import Mathlib

/-!
Verification of the Excel data transformation task-pane core
(`src/taskpane/app.js`, most evolved revision).

The JavaScript source is shallowly embedded: JS strings are Lean `String`s,
JS arrays are Lean `List`s, cell values (string | number | boolean | null)
are an inductive `Cell` (numbers restricted to integers, since every claim
under verification is about string handling, not float formatting), JSON
values are an inductive `Json`, and fallible code returns `Except`.
Single-character `String.prototype.includes` / regex-replace calls are
embedded as the corresponding character-list operations.
-/

namespace ExcelTransform

/-- JS logical-or fallback on a string: the empty string is falsy. -/
def jsOrDefault (s default : String) : String :=
  if s = "" then default else s

/-- JS truthiness of a nullable string (`null`/`undefined` and `""` are falsy). -/
def jsTruthyStr : Option String → Bool
  | none => false
  | some s => !(s == "")

/-- JS `x || null` on a nullable string. -/
def jsOrNullStr (o : Option String) : Option String :=
  if jsTruthyStr o then o else none

/-! ## Cell values and the CSV encoder (`arrayToCsv`, app.js lines 30-40) -/

/-- A spreadsheet cell value: string | number | boolean | null.
Numbers are modelled as integers (float formatting is irrelevant to the
escaping claims). -/
inductive Cell
  | null
  | str (s : String)
  | num (n : Int)
  | bool (b : Bool)
deriving DecidableEq

/-- The string form of a cell: the empty string when the cell is null,
otherwise `String(cell)`. -/
def cellStr : Cell → String
  | .null => ""
  | .str s => s
  | .num n => toString n
  | .bool b => if b then "true" else "false"

/-- Embeds JS `str.includes(c)` for a single character needle. -/
def jsIncludes (s : String) (c : Char) : Bool :=
  s.data.contains c

/-- Embeds the JS global regex replace that doubles quotes: every double-quote character is
doubled, all other characters are kept. -/
def doubleQuotes (s : String) : String :=
  ⟨s.data.flatMap (fun ch => if ch = '"' then ['"', '"'] else [ch])⟩

/-- The per-cell encoder inside `arrayToCsv`: quote (and double internal
quotes) iff the string form contains a comma, a double quote or a newline. -/
def escapeCsvCell (cell : Cell) : String :=
  let str := cellStr cell
  if jsIncludes str ',' || jsIncludes str '"' || jsIncludes str '\n' then
    "\"" ++ doubleQuotes str ++ "\""
  else str

/-- A table: a list of rows of cells (row 0 is the header). -/
abbrev Table := List (List Cell)

/-- `row.map(...).join(',')` — one CSV line. -/
def csvRow (row : List Cell) : String :=
  String.intercalate "," (row.map escapeCsvCell)

/-- `arrayToCsv` (app.js lines 30-40): rows newline-joined, cells comma-joined. -/
def arrayToCsv (data : Table) : String :=
  String.intercalate "\n" (data.map csvRow)

/-! ## Prompt construction (app.js lines 43-125) -/

def SAMPLE_SIZE : Nat := 50

/-- `buildTransformPrompt` template, part before the interpolated `SAMPLE_SIZE`. -/
def tpPartA : String :=
  "You are an Excel data transformation assistant. You will be given:\n1. INPUT DATA: A sample of the raw source data (header + up to "

/-- Template between `SAMPLE_SIZE` and the first `scriptLanguage`. -/
def tpPartB : String :=
  " rows, as CSV).\n2. OUTPUT EXAMPLE: An example of what the transformed data should look like (as CSV).\n3. (Optional) TRANSFORMATION RULES: Additional rules or descriptions.\n4. (Optional) PREVIOUS SCRIPT: A previously used script for reference.\n\nYour task:\nA) Analyze the input sample and output example to infer the transformation logic.\nB) Write a JavaScript function that implements this transformation.\nC) Generate a reusable script in "

/-- Template between the first and second `scriptLanguage`. -/
def tpPartC : String :=
  " for the user.\n\nThe JavaScript function MUST follow this exact signature and contract:\n- Signature: function transform(header, rows)\n- header: a 1D array of strings (the first row / column names from the input)\n- rows: a 2D array of the remaining data rows (each row is an array of values)\n- Return value: a 2D array INCLUDING the new header as the first row\n- The function must be pure (no external dependencies, no DOM access, no fetch)\n- The function must handle edge cases: empty cells (null or \"\"), missing columns\n- Use only standard JavaScript (ES2017) — no import/require, no Node.js APIs\n- Cell values can be strings, numbers, booleans, or null (empty cells). Handle all types appropriately.\n\nRespond with EXACTLY this JSON structure (no markdown fences, no extra text):\n\x7b\n  \"jsTransform\": \"function transform(header, rows) \x7b ... \x7d\",\n  \"script\": \"...the full "

/-- Template between the second `scriptLanguage` and the row counts. -/
def tpPartD : String :=
  " code as a string...\",\n  \"explanation\": \"Brief explanation of the transformation logic.\"\n\x7d\n\n--- INPUT DATA (CSV, "

/-- Template after the sample CSV, before the output CSV. -/
def tpPartG : String :=
  "\n\n--- OUTPUT EXAMPLE (CSV) ---\n"

/-- Template before the rules section. -/
def tpPartH : String :=
  "\n\n--- TRANSFORMATION RULES ---\n"

/-- Template before the previous-script section. -/
def tpPartI : String :=
  "\n\n--- PREVIOUS SCRIPT ---\n"

/-- `buildTransformPrompt` (app.js lines 45-91). `totalRows` and
`showingCount` are JS numbers, modelled as `Int` so that the
`inputData.length - 1` arithmetic matches JS. -/
def buildTransformPrompt (inputData outputExample : Table)
    (rules previousScript scriptLanguage : String) : String :=
  let totalRows : Int := (inputData.length : Int) - 1
  let sampleRows := inputData.take (min inputData.length (SAMPLE_SIZE + 1))
  let sampleCsv := arrayToCsv sampleRows
  let showingCount : Int := min totalRows (SAMPLE_SIZE : Int)
  let outputCsv := arrayToCsv outputExample
  tpPartA ++ toString SAMPLE_SIZE ++ tpPartB ++ scriptLanguage ++ tpPartC ++
    scriptLanguage ++ tpPartD ++ toString totalRows ++
    " total data rows, showing first " ++ toString showingCount ++ ") ---\n" ++
    sampleCsv ++ tpPartG ++ outputCsv ++ tpPartH ++
    jsOrDefault rules "(none provided)" ++ tpPartI ++
    jsOrDefault previousScript "(none provided)"

/-- `buildFixPrompt` template, before the sample CSV. -/
def fpPartA : String :=
  "You previously generated a JavaScript transform function that failed with an error when executed locally.\n\n--- ORIGINAL INPUT DATA (CSV, sample) ---\n"

/-- Template between the sample CSV and the output CSV. -/
def fpPartB : String :=
  "\n\n--- EXPECTED OUTPUT (CSV) ---\n"

/-- Template between the output CSV and the failed function source. -/
def fpPartC : String :=
  "\n\n--- FAILED FUNCTION ---\n"

/-- Template between the failed function source and the error message. -/
def fpPartD : String :=
  "\n\n--- ERROR MESSAGE ---\n"

/-- Template between the error message and the `scriptLanguage`. -/
def fpPartE : String :=
  "\n\nPlease fix the function. Same requirements as before:\n- Signature: function transform(header, rows)\n- header: a 1D array of strings (the first row / column names)\n- rows: a 2D array of the remaining data rows\n- Return a 2D array INCLUDING the new header as the first row\n- Pure JavaScript (ES2017), no external dependencies\n- Cell values can be strings, numbers, booleans, or null\n\nRespond with EXACTLY this JSON (no markdown fences, no extra text):\n\x7b\n  \"jsTransform\": \"function transform(header, rows) \x7b ... \x7d\",\n  \"script\": \"...the full "

/-- Template after the `scriptLanguage`. -/
def fpPartF : String :=
  " code...\",\n  \"explanation\": \"Explanation of what was fixed.\"\n\x7d"

/-- `buildFixPrompt` (app.js lines 93-125): frames a repair task, embedding
the failed function source and the captured error message verbatim. -/
def buildFixPrompt (inputData outputExample : Table)
    (failedFunction errorMessage scriptLanguage : String) : String :=
  let sampleCsv := arrayToCsv (inputData.take (min inputData.length (SAMPLE_SIZE + 1)))
  let outputCsv := arrayToCsv outputExample
  fpPartA ++ sampleCsv ++ fpPartB ++ outputCsv ++ fpPartC ++ failedFunction ++
    fpPartD ++ errorMessage ++ fpPartE ++ scriptLanguage ++ fpPartF

/-! ## JSON values and the response contract parser (app.js lines 128-153) -/

/-- A decoded JSON value (numbers as integers; the parser claims only
involve strings, arrays and objects). -/
inductive Json
  | null
  | bool (b : Bool)
  | num (n : Int)
  | str (s : String)
  | arr (elems : List Json)
  | obj (fields : List (String × Json))

/-- JS property access `parsed.key` on a decoded value: `none` models
`undefined` (missing key or non-object receiver). -/
def Json.getField : Json → String → Option Json
  | .obj fields, key => (fields.find? (fun f => f.1 == key)).map (fun f => f.2)
  | _, _ => none

/-- The JS string-typeof test on a possibly-missing value. -/
def isStringField : Option Json → Option String
  | some (.str s) => some s
  | _ => none

/-- `Array.isArray(x)` on a possibly-missing value. -/
def isArrayField : Option Json → Option (List Json)
  | some (.arr a) => some a
  | _ => none

/-- JS `parsed.explanation` with empty-string fallback: falsy values (missing, null, false, 0,
empty string) become the empty string, anything else is kept as-is. -/
def jsOrEmptyStr : Option Json → Json
  | none => .str ""
  | some .null => .str ""
  | some (.bool false) => .str ""
  | some (.num 0) => .str ""
  | some (.str "") => .str ""
  | some j => j

/-- The parser result: either the new `jsTransform` format (the decoded
object returned as-is) or the backward-compatible direct-data format
(rebuilt with `jsTransform: null`, which the variant choice encodes). -/
inductive ParsedResult
  | functionForm (parsed : Json)
  | directDataForm (transformedData : Json) (script : String) (explanation : Json)

/-- The structural case analysis of `parseTransformResponse`
(app.js lines 137-152), after `JSON.parse` has produced a value. -/
def parseTransformResponse (parsed : Json) : Except String ParsedResult :=
  match isStringField (parsed.getField "jsTransform"),
        isStringField (parsed.getField "script") with
  | some _, some _ => .ok (.functionForm parsed)
  | _, _ =>
    match isArrayField (parsed.getField "transformedData"),
          isStringField (parsed.getField "script") with
    | some td, some sc =>
      .ok (.directDataForm (.arr td) sc (jsOrEmptyStr (parsed.getField "explanation")))
    | _, _ =>
      .error "Invalid response structure: missing jsTransform function or script string."

/-- JS `String.prototype.trim` (whitespace per `Char.isWhitespace`). -/
def jsTrim (s : String) : String := s.trim

/-- Drop leading whitespace characters (the `\s*` of the leading-fence regex). -/
def dropLeadingWs (s : String) : String :=
  ⟨s.data.dropWhile Char.isWhitespace⟩

/-- Drop trailing whitespace characters (the `\s*$` of the trailing-fence regex). -/
def dropTrailingWs (s : String) : String :=
  ⟨(s.data.reverse.dropWhile Char.isWhitespace).reverse⟩

/-- Embeds the removal of the leading-fence regex match: an opening
fence, an optional case-insensitive `json` tag, then all leading whitespace
(the greedy `\s*` subsumes the optional newline). -/
def stripLeadFence (c : String) : String :=
  if c.startsWith "```" then
    let rest := c.drop 3
    let rest := if (rest.take 4).toLower = "json" then rest.drop 4 else rest
    dropLeadingWs rest
  else c

/-- Embeds the removal of the trailing-fence regex match: a closing fence at
the end (modulo trailing whitespace), optionally preceded by one newline. -/
def stripTrailFence (c : String) : String :=
  let t := dropTrailingWs c
  if t.endsWith "```" then
    let u := t.dropRight 3
    if u.endsWith "\n" then u.dropRight 1 else u
  else c

/-- The fence/whitespace stripping of `parseTransformResponse`
(app.js lines 130-133). -/
def stripFences (raw : String) : String :=
  jsTrim (stripTrailFence (stripLeadFence (jsTrim raw)))

/-- Full `parseTransformResponse` (app.js lines 128-153): strip fences,
decode with the platform JSON decoder (passed as a parameter; `none`
models a thrown `SyntaxError`), then run the structural case analysis. -/
def parseResponseRaw (jsonDecode : String → Option Json) (raw : String) :
    Except String ParsedResult :=
  match jsonDecode (stripFences raw) with
  | none => .error "SyntaxError: Unexpected token in JSON"
  | some j => parseTransformResponse j

/-! ## Return-shape validation in `executeJsTransform` (app.js lines 174-181) -/

/-- The result-shape validation of `executeJsTransform`: the return value of the callable
must be a non-empty array whose first element is an array;
the exact value is returned unchanged. No per-row width check exists. -/
def validateShape (result : Json) : Except String Json :=
  match result with
  | .arr (first :: rest) =>
    match first with
    | .arr _ => .ok (.arr (first :: rest))
    | _ => .error "Transform function did not return a 2D array."
  | _ => .error "Transform function returned empty or non-array result."

/-! ## Heap model for the defensive copies in `executeJsTransform`
(app.js lines 156-172)

JS row arrays are mutable heap objects; cells are primitives. A `Heap`
maps a reference (its index) to the row array stored there. The
caller-owned
`fullData` is a list of references to row arrays. `executeJsTransform`
copies the header row (`fullData[0].slice()`) and every data row
(`fullData.slice(1).map(row => row.slice())`) into fresh references
before handing them to the untrusted callable, whose cell mutations are
modelled as a list of `CellWrite`s against the references it was given. -/

abbrev Row := List Cell

/-- A JS heap of row arrays; the reference of a row is its index. -/
structure Heap where
  rows : List Row

/-- Dereference: `none` models a dangling reference. -/
def Heap.lookup (h : Heap) (r : Nat) : Option Row :=
  h.rows[r]?

/-- Allocate a fresh row array (JS `Array.prototype.slice` produces a new
object); returns the new heap and the fresh reference. -/
def Heap.alloc (h : Heap) (row : Row) : Heap × Nat :=
  (⟨h.rows ++ [row]⟩, h.rows.length)

/-- `target[idx] = v` on the row array behind reference `r`. -/
def Heap.writeCell (h : Heap) (r idx : Nat) (v : Cell) : Heap :=
  ⟨h.rows.set r ((h.rows[r]?.getD []).set idx v)⟩

/-- Allocate shallow copies of the rows behind the given references, in
order (`rows.map(row => row.slice())`). -/
def allocCopies (h : Heap) (refs : List Nat) : Heap × List Nat :=
  match refs with
  | [] => (h, [])
  | r :: rs =>
    let p := h.alloc ((h.lookup r).getD [])
    let q := allocCopies p.1 rs
    (q.1, p.2 :: q.2)

/-- The copy phase of `executeJsTransform` (app.js lines 158-159):
`header = fullData[0].slice()` and
`rows = fullData.slice(1).map(row => row.slice())`.
Returns (heap after copying, header-copy reference, row-copy references).
The empty-table case is unreachable for captured tables (the JS would
throw on `fullData[0]`). -/
def executeCopyPhase (h : Heap) (fullData : List Nat) : Heap × Nat × List Nat :=
  match fullData with
  | [] => (h, 0, [])
  | r0 :: rest =>
    let ph := h.alloc ((h.lookup r0).getD [])
    let pr := allocCopies ph.1 rest
    (pr.1, ph.2, pr.2)

/-- One cell mutation performed by the untrusted callable:
`ref[idx] = val`. -/
structure CellWrite where
  ref : Nat
  idx : Nat
  val : Cell

/-- Apply the mutations of the callable in order. -/
def applyWrites (h : Heap) (ws : List CellWrite) : Heap :=
  ws.foldl (fun h w => h.writeCell w.ref w.idx w.val) h

/-! ## Network call wrapper `apiCall` (app.js lines 203-256) -/

/-- The fixed client-side timeout budget (90 s, under the 120 s of the gateway). -/
def CLIENT_TIMEOUT_MS : Nat := 90000

/-- The JSON body of a proxy reply:
`{ success, status?, error?, content }`. -/
structure ProxyBody where
  success : Bool
  status : Option Nat
  error : Option String
  content : String

/-- What resolves the pending call first: the client-side timeout timer,
the external cancel signal, or an HTTP response. -/
inductive CallEvent
  | timerFired
  | externalAbort
  | response (httpStatus : Nat) (body : ProxyBody)

/-- The outcome of `apiCall`: the returned data or the thrown message. -/
inductive ApiResult
  | ok (body : ProxyBody)
  | error (msg : String)

/-- One run of `apiCall`, also recording whether `fetch` was issued and
whether the timeout timer was cleared. -/
structure ApiCallRun where
  result : ApiResult
  requestSent : Bool
  timerCleared : Bool

def timeoutMsg : String := "Request timed out. The AI took too long to respond."

def cancelledMsg : String := "Request was cancelled."

def rateLimitedMsg : String := "Rate limited. Please wait a moment and try again."

def upstreamMsg : String := "AI service error. Try again later."

def unknownProxyMsg : String := "Unknown error from proxy."

/-- JS `data.status || response.status` (`0` is falsy). -/
def jsOrNat (a : Option Nat) (b : Nat) : Nat :=
  match a with
  | some n => if n = 0 then b else n
  | none => b

/-- JS logical-or fallback of `data.error` onto the default message (an empty
string is falsy). -/
def jsOrStr (a : Option String) (b : String) : String :=
  match a with
  | some s => if s = "" then b else s
  | none => b

/-- The `!data.success` branch of `apiCall` (app.js lines 239-244):
429 → rate-limited, ≥500 → upstream error, anything else → the
provider-supplied message. -/
def classifyFailure (httpStatus : Nat) (body : ProxyBody) : String :=
  let status := jsOrNat body.status httpStatus
  if status = 429 then rateLimitedMsg
  else if 500 ≤ status then upstreamMsg
  else jsOrStr body.error unknownProxyMsg

/-- `apiCall` (app.js lines 205-256). `preAborted` is
`externalSignal.aborted` at entry; `ev` is whichever of the timer, the
external abort, or the HTTP response wins the race. -/
def apiCall (preAborted : Bool) (ev : CallEvent) : ApiCallRun :=
  if preAborted then
    { result := .error cancelledMsg, requestSent := false, timerCleared := true }
  else
    match ev with
    | .timerFired =>
      { result := .error timeoutMsg, requestSent := true, timerCleared := true }
    | .externalAbort =>
      { result := .error cancelledMsg, requestSent := true, timerCleared := true }
    | .response s body =>
      if body.success then
        { result := .ok body, requestSent := true, timerCleared := true }
      else
        { result := .error (classifyFailure s body), requestSent := true,
          timerCleared := true }

/-! ## The transform cycle of `runTransform` (app.js lines 517-648) -/

/-- The retry-relevant session state: `state.lastJsTransform` and
`state.lastExecError` (app.js lines 13-14). -/
structure SessionState where
  lastJsTransform : Option String
  lastExecError : Option String

/-- Outcome of the local execution of the generated function. -/
inductive ExecOutcome
  | success (data : Json)
  | failure (msg : String)

/-- The environment responses consumed by one cycle: the network call
fails, the parse fails, or a parsed reply arrives (carrying
`parsed.jsTransform`, `parsed.transformedData`, and — when the JS path
runs — the local execution outcome). -/
inductive CycleEnv
  | apiFail (msg : String)
  | parseFail
  | parsed (jsTransform : Option String) (transformedData : Option Json)
      (execOut : ExecOutcome)

/-- The terminal condition of one cycle. -/
inductive CycleResult
  | failed (msg : String)
  | awaitingRetry (msg : String)
  | succeeded (data : Json)

/-- The observable effects of one cycle: the updated session state, the prompt
sent to the model, and the terminal condition. -/
structure CycleRun where
  newState : SessionState
  prompt : String
  outcome : CycleResult

/-- The prompt choice of `runTransform` (app.js lines 539-549): the fix
prompt is used only when `retryMode && state.lastJsTransform &&
state.lastExecError` (JS truthiness). -/
def selectPrompt (retryMode : Bool) (st : SessionState)
    (inputData outputData : Table) (rules previousScript scriptLang : String) :
    String :=
  if retryMode && jsTruthyStr st.lastJsTransform && jsTruthyStr st.lastExecError then
    buildFixPrompt inputData outputData (st.lastJsTransform.getD "")
      (st.lastExecError.getD "") scriptLang
  else
    buildTransformPrompt inputData outputData rules previousScript scriptLang

/-- One `runTransform` cycle (app.js lines 517-648), as a function of the
session state and the responses of the environment:
* network failure / parse failure leave the retry context untouched;
* a truthy `parsed.jsTransform` runs the local execution: failure stores
  `{lastJsTransform := source, lastExecError := message}` (lines 593-594),
  success stores the source and clears the error (lines 624-625);
* otherwise a present `transformedData` succeeds directly (line 611),
  also clearing the error in the shared success epilogue. -/
def runTransformCycle (retryMode : Bool) (st : SessionState)
    (inputData outputData : Table) (rules previousScript scriptLang : String)
    (env : CycleEnv) : CycleRun :=
  let prompt := selectPrompt retryMode st inputData outputData rules
    previousScript scriptLang
  match env with
  | .apiFail msg => ⟨st, prompt, .failed msg⟩
  | .parseFail =>
    ⟨st, prompt, .failed "Failed to parse AI response. Raw response shown below."⟩
  | .parsed js td exec =>
    if jsTruthyStr js then
      match exec with
      | .failure msg =>
        ⟨{ lastJsTransform := js, lastExecError := some msg }, prompt,
          .awaitingRetry msg⟩
      | .success d =>
        ⟨{ lastJsTransform := js, lastExecError := none }, prompt, .succeeded d⟩
    else
      match td with
      | some t =>
        ⟨{ lastJsTransform := jsOrNullStr js, lastExecError := none }, prompt,
          .succeeded t⟩
      | none =>
        ⟨st, prompt, .failed "AI did not return a transform function or data."⟩

/-! ## Cancellation of the previous in-flight call (app.js lines 558-560)

`runTransform` always runs
`if (state.abortController) state.abortController.abort();
 state.abortController = new AbortController();`
before issuing its network call. The trace model below records, per cycle
start, the abort of the previous controller followed by the issue of the
new call. -/

/-- An observable network-lifecycle action. -/
inductive NetAction
  | abort (id : Nat)
  | issue (id : Nat)
deriving DecidableEq

/-- The actions emitted at the start of one cycle, given the previous
in-flight call (if any): abort it, then issue the new call. -/
def startCycleActions (cur : Option Nat) (newId : Nat) : List NetAction :=
  (match cur with
   | some i => [NetAction.abort i]
   | none => []) ++ [NetAction.issue newId]

/-- The full action trace of a sequence of cycle starts. -/
def cycleTrace (cur : Option Nat) : List Nat → List NetAction
  | [] => []
  | id :: rest => startCycleActions cur id ++ cycleTrace (some id) rest

/-- The set of current (issued, not yet aborted) calls after one action. -/
def applyNetAction (current : List Nat) : NetAction → List Nat
  | .issue i => i :: current
  | .abort i => current.erase i

/-- At every point of the trace, at most one call is current. -/
def currentOk (current : List Nat) : List NetAction → Prop
  | [] => current.length ≤ 1
  | a :: rest => current.length ≤ 1 ∧ currentOk (applyNetAction current a) rest

/-- What the awaited call of a cycle delivers to its continuation. -/
inductive CallOutcome
  | reply (text : String)
  | cancelled
deriving DecidableEq

/-- The outcome a cycle observes for its call `id`: if the trace aborted
`id`, the fetch rejects and the cycle sees the cancelled error — its
reply, even if it arrives, is never observed. -/
def observedOutcome (trace : List NetAction) (id : Nat) (replyText : String) :
    CallOutcome :=
  if NetAction.abort id ∈ trace then .cancelled else .reply replyText

/-- Specification-side predicate: the string contains a comma, a double
quote or a newline (the condition under which a CSV cell must be quoted). -/
def hasSpecialChar (s : String) : Prop :=
  ∃ c ∈ s.data, c = ',' ∨ c = '"' ∨ c = '\n'

/-! ## Theorems -/

theorem intercalate_go_append (s : String) :
    ∀ (as : List String) (acc₁ acc₂ : String),
      String.intercalate.go (acc₁ ++ acc₂) s as =
        acc₁ ++ String.intercalate.go acc₂ s as := by
  intro as
  induction as with
  | nil => intro acc₁ acc₂; rfl
  | cons a tail ih =>
    intro acc₁ acc₂
    show String.intercalate.go (acc₁ ++ acc₂ ++ s ++ a) s tail = _
    rw [String.append_assoc acc₁ acc₂ s, String.append_assoc acc₁ (acc₂ ++ s) a, ih]
    rfl

theorem intercalate_cons_cons (s a b : String) (l : List String) :
    String.intercalate s (a :: b :: l) = a ++ s ++ String.intercalate s (b :: l) := by
  show String.intercalate.go (a ++ s ++ b) s l = _
  rw [intercalate_go_append s l (a ++ s) b]
  rfl

theorem jsIncludes_iff (s : String) (c : Char) : jsIncludes s c = true ↔ c ∈ s.data := by
  simp [jsIncludes]

theorem jsIncludes_special_iff (s : String) :
    (jsIncludes s ',' || jsIncludes s '"' || jsIncludes s '\n') = true ↔
      hasSpecialChar s := by
  simp only [Bool.or_eq_true, jsIncludes_iff, hasSpecialChar]
  constructor
  · rintro ((h | h) | h)
    · exact ⟨',', h, Or.inl rfl⟩
    · exact ⟨'"', h, Or.inr (Or.inl rfl)⟩
    · exact ⟨'\n', h, Or.inr (Or.inr rfl)⟩
  · rintro ⟨c, hc, rfl | rfl | rfl⟩
    · exact Or.inl (Or.inl hc)
    · exact Or.inl (Or.inr hc)
    · exact Or.inr hc

/-- C8: CSV escaping law of the encoder: the string form of a cell is wrapped in
double quotes with every internal double quote doubled iff it contains a
comma, a double quote or a newline, and is emitted unquoted otherwise; a
null cell renders as the empty string; cells in a row are comma-joined and
rows are newline-joined. -/
theorem csv_escaping_law :
    (∀ cell, hasSpecialChar (cellStr cell) →
      escapeCsvCell cell = "\"" ++ doubleQuotes (cellStr cell) ++ "\"") ∧
    (∀ cell, ¬ hasSpecialChar (cellStr cell) → escapeCsvCell cell = cellStr cell) ∧
    cellStr Cell.null = "" ∧
    (∀ cell, csvRow [cell] = escapeCsvCell cell) ∧
    (∀ c₁ c₂ cs, csvRow (c₁ :: c₂ :: cs) =
      escapeCsvCell c₁ ++ "," ++ csvRow (c₂ :: cs)) ∧
    (∀ r, arrayToCsv [r] = csvRow r) ∧
    (∀ r₁ r₂ rs, arrayToCsv (r₁ :: r₂ :: rs) =
      csvRow r₁ ++ "\n" ++ arrayToCsv (r₂ :: rs)) := by
  refine ⟨?_, ?_, rfl, fun cell => rfl, ?_, fun r => rfl, ?_⟩
  · intro cell h
    have hb := (jsIncludes_special_iff (cellStr cell)).2 h
    simp [escapeCsvCell, hb]
  · intro cell h
    have hb : (jsIncludes (cellStr cell) ',' || jsIncludes (cellStr cell) '"' ||
        jsIncludes (cellStr cell) '\n') = false := by
      rw [Bool.eq_false_iff]
      intro hc
      exact h ((jsIncludes_special_iff _).1 hc)
    simp [escapeCsvCell, hb]
  · intro c₁ c₂ cs
    simp only [csvRow, List.map_cons]
    rw [intercalate_cons_cons]
  · intro r₁ r₂ rs
    simp only [arrayToCsv, List.map_cons]
    rw [intercalate_cons_cons]

/-- C8 witness: the quoting branch of the law at a concrete cell containing
a double quote, and the unquoted branch at a plain cell. -/
theorem csv_escaping_law_witness :
    escapeCsvCell (Cell.str "a\"b") = "\"" ++ doubleQuotes (cellStr (Cell.str "a\"b")) ++ "\"" ∧
    escapeCsvCell (Cell.str "plain") = cellStr (Cell.str "plain") :=
  ⟨csv_escaping_law.1 (Cell.str "a\"b") ⟨'"', by decide, by decide⟩,
   csv_escaping_law.2.1 (Cell.str "plain") (by unfold hasSpecialChar; decide)⟩

/-- C3: return-shape validation: an empty array fails with the ShapeError
message, a flat array such as `[1,2,3]` fails with the 2D ShapeError
message, a non-empty array whose first element is an array succeeds with
exactly that value, and no per-row width check exists (rows of differing
lengths still succeed). -/
theorem shape_validation_cases :
    validateShape (.arr []) =
      .error "Transform function returned empty or non-array result." ∧
    validateShape (.arr [.num 1, .num 2, .num 3]) =
      .error "Transform function did not return a 2D array." ∧
    (∀ hd rest, validateShape (.arr (.arr hd :: rest)) = .ok (.arr (.arr hd :: rest))) ∧
    validateShape (.arr [.arr [.str "H1", .str "H2"], .arr [.str "a", .str "b"]]) =
      .ok (.arr [.arr [.str "H1", .str "H2"], .arr [.str "a", .str "b"]]) ∧
    validateShape (.arr [.arr [.str "H1", .str "H2"], .arr [.str "a"]]) =
      .ok (.arr [.arr [.str "H1", .str "H2"], .arr [.str "a"]]) :=
  ⟨rfl, rfl, fun _ _ => rfl, rfl, rfl⟩

/-- C9: a pre-aborted external cancel signal makes `apiCall` fail
immediately with the cancelled error, clear its timeout timer, and issue
no outbound request, whatever would have resolved the call. -/
theorem preaborted_cancel_short_circuit :
    ∀ ev, apiCall true ev =
      { result := .error cancelledMsg, requestSent := false, timerCleared := true } :=
  fun _ => rfl

/-- C6: the network wrapper fails with the timeout error when the
client-side budget elapses first, with the cancelled error when the
external signal fires first, and classifies a failure reply by status:
429 → rate-limited, ≥500 → upstream error, anything else → the
provider-supplied message. -/
theorem network_error_classification :
    (apiCall false .timerFired).result = .error timeoutMsg ∧
    (apiCall false .externalAbort).result = .error cancelledMsg ∧
    (∀ s body, body.success = false → jsOrNat body.status s = 429 →
      (apiCall false (.response s body)).result = .error rateLimitedMsg) ∧
    (∀ s body, body.success = false → jsOrNat body.status s ≠ 429 →
      500 ≤ jsOrNat body.status s →
      (apiCall false (.response s body)).result = .error upstreamMsg) ∧
    (∀ s body m, body.success = false → jsOrNat body.status s ≠ 429 →
      jsOrNat body.status s < 500 → body.error = some m → m ≠ "" →
      (apiCall false (.response s body)).result = .error m) := by
  refine ⟨rfl, rfl, ?_, ?_, ?_⟩
  · intro s body hs h429
    simp [apiCall, hs, classifyFailure, h429]
  · intro s body hs h429 h500
    simp [apiCall, hs, classifyFailure, h429, h500]
  · intro s body m hs h429 h500 herr hne
    simp [apiCall, hs, classifyFailure, h429, Nat.not_le.2 h500, jsOrStr, herr, hne]

/-- C6 witness: the three classification branches at concrete statuses
429, 503 and 400. -/
theorem network_error_classification_witness :
    (apiCall false (.response 200 ⟨false, some 429, none, ""⟩)).result =
      .error rateLimitedMsg ∧
    (apiCall false (.response 503 ⟨false, none, none, ""⟩)).result =
      .error upstreamMsg ∧
    (apiCall false (.response 400 ⟨false, none, some "boom", ""⟩)).result =
      .error "boom" :=
  ⟨network_error_classification.2.2.1 200 ⟨false, some 429, none, ""⟩ rfl (by decide),
   network_error_classification.2.2.2.1 503 ⟨false, none, none, ""⟩ rfl
     (by decide) (by decide),
   network_error_classification.2.2.2.2 400 ⟨false, none, some "boom", ""⟩ "boom" rfl
     (by decide) (by decide) rfl (by decide)⟩

/-- C5: sampling invariant of the prompt builder: for a table of a header
row plus 500 data rows, the prompt encodes exactly the first 51 rows
(header + 50 data rows) and its text states 500 as the true total
data-row count and 50 as the shown count. -/
theorem sampling_invariant (input output : Table) (rules prev lang : String)
    (h : input.length = 501) :
    buildTransformPrompt input output rules prev lang =
      tpPartA ++ toString SAMPLE_SIZE ++ tpPartB ++ lang ++ tpPartC ++ lang ++
        tpPartD ++ "500" ++ " total data rows, showing first " ++ "50" ++
        ") ---\n" ++ arrayToCsv (input.take 51) ++ tpPartG ++ arrayToCsv output ++
        tpPartH ++ jsOrDefault rules "(none provided)" ++ tpPartI ++
        jsOrDefault prev "(none provided)" := by
  unfold buildTransformPrompt
  rw [h]
  rfl

/-- C5 witness: the invariant at a concrete 501-row table. -/
theorem sampling_invariant_witness :
    buildTransformPrompt (List.replicate 501 [Cell.str "a"]) [[Cell.str "B"]]
        "" "" "VBA" =
      tpPartA ++ toString SAMPLE_SIZE ++ tpPartB ++ "VBA" ++ tpPartC ++ "VBA" ++
        tpPartD ++ "500" ++ " total data rows, showing first " ++ "50" ++
        ") ---\n" ++ arrayToCsv ((List.replicate 501 [Cell.str "a"]).take 51) ++
        tpPartG ++ arrayToCsv [[Cell.str "B"]] ++ tpPartH ++
        jsOrDefault "" "(none provided)" ++ tpPartI ++
        jsOrDefault "" "(none provided)" :=
  sampling_invariant (List.replicate 501 [Cell.str "a"]) [[Cell.str "B"]] "" "" "VBA"
    (by rw [List.length_replicate])

/-- C1: retry-context lifecycle: a failed local execution stores the failed
source and error message; a retry with that stored context builds its
prompt with `buildFixPrompt`, which embeds both verbatim; a successful
execution clears the stored error, after which a retry builds the ordinary
transform prompt again. -/
theorem retry_context_lifecycle :
    (∀ rm st (input output : Table) (rules prev lang src msg : String) td,
      src ≠ "" →
      (runTransformCycle rm st input output rules prev lang
        (.parsed (some src) td (.failure msg))).newState =
        ⟨some src, some msg⟩) ∧
    (∀ st (input output : Table) (rules prev lang src msg : String) env,
      st = ⟨some src, some msg⟩ → src ≠ "" → msg ≠ "" →
      (runTransformCycle true st input output rules prev lang env).prompt =
        buildFixPrompt input output src msg lang) ∧
    (∀ (input output : Table) (src msg lang : String),
      ∃ p q r, buildFixPrompt input output src msg lang =
        p ++ src ++ q ++ msg ++ r) ∧
    (∀ rm st (input output : Table) (rules prev lang src : String) td d,
      src ≠ "" →
      (runTransformCycle rm st input output rules prev lang
        (.parsed (some src) td (.success d))).newState.lastExecError = none) ∧
    (∀ st (input output : Table) (rules prev lang : String),
      st.lastExecError = none →
      selectPrompt true st input output rules prev lang =
        buildTransformPrompt input output rules prev lang) := by
  refine ⟨?_, ?_, ?_, ?_, ?_⟩
  · intro rm st input output rules prev lang src msg td hsrc
    have hjs : jsTruthyStr (some src) = true := by simp [jsTruthyStr, hsrc]
    simp only [runTransformCycle, hjs, if_true]
  · intro st input output rules prev lang src msg env hst hsrc hmsg
    subst hst
    have hsel : selectPrompt true ⟨some src, some msg⟩ input output rules prev lang =
        buildFixPrompt input output src msg lang := by
      simp [selectPrompt, jsTruthyStr, hsrc, hmsg]
    cases env with
    | apiFail m => simp [runTransformCycle, hsel]
    | parseFail => simp [runTransformCycle, hsel]
    | parsed js td exec =>
      cases hjs : jsTruthyStr js <;> cases exec <;> cases td <;>
        simp [runTransformCycle, hsel, hjs]
  · intro input output src msg lang
    refine ⟨fpPartA ++ arrayToCsv (input.take (min input.length (SAMPLE_SIZE + 1))) ++
      fpPartB ++ arrayToCsv output ++ fpPartC, fpPartD,
      fpPartE ++ lang ++ fpPartF, ?_⟩
    simp [buildFixPrompt, String.append_assoc]
  · intro rm st input output rules prev lang src td d hsrc
    have hjs : jsTruthyStr (some src) = true := by simp [jsTruthyStr, hsrc]
    simp only [runTransformCycle, hjs, if_true]
  · intro st input output rules prev lang h
    simp [selectPrompt, h, jsTruthyStr]

/-- C1 witness: the lifecycle at concrete inputs — a failure stores
`("src", "boom")`, the retry from that state builds the fix prompt, the
fix prompt decomposes around the stored strings, a success clears the
error, and a retry from a cleared state builds the transform prompt. -/
theorem retry_context_lifecycle_witness :
    (runTransformCycle false ⟨none, none⟩ [[Cell.str "h"]] [[Cell.str "o"]]
        "" "" "VBA" (.parsed (some "src") none (.failure "boom"))).newState =
      ⟨some "src", some "boom"⟩ ∧
    (runTransformCycle true ⟨some "src", some "boom"⟩ [[Cell.str "h"]]
        [[Cell.str "o"]] "" "" "VBA" (.apiFail "down")).prompt =
      buildFixPrompt [[Cell.str "h"]] [[Cell.str "o"]] "src" "boom" "VBA" ∧
    (∃ p q r, buildFixPrompt [[Cell.str "h"]] [[Cell.str "o"]] "src" "boom" "VBA" =
      p ++ "src" ++ q ++ "boom" ++ r) ∧
    (runTransformCycle false ⟨some "src", some "boom"⟩ [[Cell.str "h"]]
        [[Cell.str "o"]] "" "" "VBA"
        (.parsed (some "src2") none (.success (.arr [])))).newState.lastExecError =
      none ∧
    selectPrompt true ⟨some "src2", none⟩ [[Cell.str "h"]] [[Cell.str "o"]]
        "" "" "VBA" =
      buildTransformPrompt [[Cell.str "h"]] [[Cell.str "o"]] "" "" "VBA" :=
  ⟨retry_context_lifecycle.1 false ⟨none, none⟩ [[Cell.str "h"]] [[Cell.str "o"]]
      "" "" "VBA" "src" "boom" none (by decide),
   retry_context_lifecycle.2.1 ⟨some "src", some "boom"⟩ [[Cell.str "h"]]
      [[Cell.str "o"]] "" "" "VBA" "src" "boom" (.apiFail "down") rfl
      (by decide) (by decide),
   retry_context_lifecycle.2.2.1 [[Cell.str "h"]] [[Cell.str "o"]] "src" "boom" "VBA",
   retry_context_lifecycle.2.2.2.1 false ⟨some "src", some "boom"⟩ [[Cell.str "h"]]
      [[Cell.str "o"]] "" "" "VBA" "src2" none (.arr []) (by decide),
   retry_context_lifecycle.2.2.2.2 ⟨some "src2", none⟩ [[Cell.str "h"]]
      [[Cell.str "o"]] "" "" "VBA" rfl⟩

/-- C10: starting a retry-mode cycle while the stored failed source or the
stored error message is absent silently builds the ordinary transform
prompt (with the free-text rules and prior script) instead of a fix
prompt. -/
theorem retry_fallback_no_context :
    ∀ st (input output : Table) (rules prev lang : String) env,
      st.lastJsTransform = none ∨ st.lastExecError = none →
      (runTransformCycle true st input output rules prev lang env).prompt =
        buildTransformPrompt input output rules prev lang := by
  intro st input output rules prev lang env h
  have hsel : selectPrompt true st input output rules prev lang =
      buildTransformPrompt input output rules prev lang := by
    rcases h with h | h <;> simp [selectPrompt, h, jsTruthyStr]
  cases env with
  | apiFail m => simp [runTransformCycle, hsel]
  | parseFail => simp [runTransformCycle, hsel]
  | parsed js td exec =>
    cases hjs : jsTruthyStr js <;> cases exec <;> cases td <;>
      simp [runTransformCycle, hsel, hjs]

/-- C10 witness: a retry with a stored source but no stored error builds
the ordinary transform prompt. -/
theorem retry_fallback_no_context_witness :
    (runTransformCycle true ⟨some "src", none⟩ [[Cell.str "h"]] [[Cell.str "o"]]
        "rule" "prior" "VBA" (.apiFail "down")).prompt =
      buildTransformPrompt [[Cell.str "h"]] [[Cell.str "o"]] "rule" "prior" "VBA" :=
  retry_fallback_no_context ⟨some "src", none⟩ [[Cell.str "h"]] [[Cell.str "o"]]
    "rule" "prior" "VBA" (.apiFail "down") (Or.inr rfl)

/-- C4: response-parse case analysis and precedence: a decode failure (or a
value matching neither shape) yields the malformed-reply error, a decoded
value with string `jsTransform` and `script` fields is returned as the
function form even when the legacy fields are also present, and a value
with only the legacy fields is returned as the direct-data form. -/
theorem response_parse_precedence :
    (∀ jsonDecode raw, jsonDecode (stripFences raw) = none →
      parseResponseRaw jsonDecode raw =
        .error "SyntaxError: Unexpected token in JSON") ∧
    (∀ jsonDecode raw j, jsonDecode (stripFences raw) = some j →
      parseResponseRaw jsonDecode raw = parseTransformResponse j) ∧
    (∀ j src sc, j.getField "jsTransform" = some (.str src) →
      j.getField "script" = some (.str sc) →
      parseTransformResponse j = .ok (.functionForm j)) ∧
    (∀ j td sc, isStringField (j.getField "jsTransform") = none →
      j.getField "transformedData" = some (.arr td) →
      j.getField "script" = some (.str sc) →
      parseTransformResponse j =
        .ok (.directDataForm (.arr td) sc (jsOrEmptyStr (j.getField "explanation")))) ∧
    (∀ j, (isStringField (j.getField "jsTransform") = none ∨
           isStringField (j.getField "script") = none) →
      (isArrayField (j.getField "transformedData") = none ∨
       isStringField (j.getField "script") = none) →
      parseTransformResponse j =
        .error "Invalid response structure: missing jsTransform function or script string.") := by
  refine ⟨?_, ?_, ?_, ?_, ?_⟩
  · intro jsonDecode raw h
    simp [parseResponseRaw, h]
  · intro jsonDecode raw j h
    simp [parseResponseRaw, h]
  · intro j src sc h1 h2
    unfold parseTransformResponse
    rw [h1, h2]
    rfl
  · intro j td sc h1 h2 h3
    unfold parseTransformResponse
    rw [h1, h2, h3]
    rfl
  · intro j h1 h2
    cases hA : isStringField (j.getField "jsTransform") <;>
      cases hB : isStringField (j.getField "script") <;>
      cases hC : isArrayField (j.getField "transformedData") <;>
      unfold parseTransformResponse <;> rw [hA, hB, hC] <;> simp_all

/-- C4 witness: both shapes present parses as the function form; legacy
fields only parse as the direct-data form; an empty object fails; a decode
failure fails. -/
theorem response_parse_precedence_witness :
    parseTransformResponse
        (.obj [("jsTransform", .str "function transform(h, r) \x7b return [h]; \x7d"),
               ("script", .str "Sub T()"),
               ("transformedData", .arr [.arr [.str "A"]])]) =
      .ok (.functionForm
        (.obj [("jsTransform", .str "function transform(h, r) \x7b return [h]; \x7d"),
               ("script", .str "Sub T()"),
               ("transformedData", .arr [.arr [.str "A"]])])) ∧
    parseTransformResponse
        (.obj [("transformedData", .arr [.arr [.str "A"]]),
               ("script", .str "Sub T()")]) =
      .ok (.directDataForm (.arr [.arr [.str "A"]]) "Sub T()"
        (jsOrEmptyStr ((Json.obj [("transformedData", .arr [.arr [.str "A"]]),
               ("script", .str "Sub T()")]).getField "explanation"))) ∧
    parseTransformResponse (.obj []) =
      .error "Invalid response structure: missing jsTransform function or script string." ∧
    parseResponseRaw (fun _ => none) "not json" =
      .error "SyntaxError: Unexpected token in JSON" :=
  ⟨response_parse_precedence.2.2.1
      (.obj [("jsTransform", .str "function transform(h, r) \x7b return [h]; \x7d"),
             ("script", .str "Sub T()"),
             ("transformedData", .arr [.arr [.str "A"]])])
      "function transform(h, r) \x7b return [h]; \x7d" "Sub T()" rfl rfl,
   response_parse_precedence.2.2.2.1
      (.obj [("transformedData", .arr [.arr [.str "A"]]),
             ("script", .str "Sub T()")])
      [.arr [.str "A"]] "Sub T()" rfl rfl rfl,
   response_parse_precedence.2.2.2.2 (.obj []) (Or.inl rfl) (Or.inl rfl),
   response_parse_precedence.1 (fun _ => none) "not json" rfl⟩

theorem lookup_alloc_lt (h : Heap) (row : Row) (r : Nat) (hr : r < h.rows.length) :
    (h.alloc row).1.lookup r = h.lookup r := by
  simp only [Heap.alloc, Heap.lookup]
  rw [List.getElem?_append, if_pos hr]

theorem alloc_length (h : Heap) (row : Row) :
    (h.alloc row).1.rows.length = h.rows.length + 1 := by
  simp [Heap.alloc]

theorem allocCopies_length (refs : List Nat) :
    ∀ h : Heap, h.rows.length ≤ (allocCopies h refs).1.rows.length := by
  induction refs with
  | nil => intro h; exact Nat.le_refl _
  | cons x xs ih =>
    intro h
    calc h.rows.length ≤ (h.alloc ((h.lookup x).getD [])).1.rows.length := by
          rw [alloc_length]; exact Nat.le_succ _
      _ ≤ (allocCopies (h.alloc ((h.lookup x).getD [])).1 xs).1.rows.length := ih _

theorem allocCopies_lookup_lt (refs : List Nat) :
    ∀ (h : Heap) (r : Nat), r < h.rows.length →
      (allocCopies h refs).1.lookup r = h.lookup r := by
  induction refs with
  | nil => intro h r _; rfl
  | cons x xs ih =>
    intro h r hr
    show (allocCopies (h.alloc ((h.lookup x).getD [])).1 xs).1.lookup r = _
    rw [ih _ r (by rw [alloc_length]; exact Nat.lt_succ_of_lt hr)]
    exact lookup_alloc_lt h _ r hr

theorem allocCopies_refs_ge (refs : List Nat) :
    ∀ (h : Heap) (n : Nat), n ∈ (allocCopies h refs).2 → h.rows.length ≤ n := by
  induction refs with
  | nil => intro h n hn; simp [allocCopies] at hn
  | cons x xs ih =>
    intro h n hn
    rcases List.mem_cons.1 hn with h1 | h2
    · subst h1; exact Nat.le_refl _
    · have := ih (h.alloc ((h.lookup x).getD [])).1 n h2
      rw [alloc_length] at this
      exact Nat.le_of_succ_le this

theorem forall₂_imp_mem {α β : Type} {R S : α → β → Prop} :
    ∀ {l₁ : List α} {l₂ : List β}, List.Forall₂ R l₁ l₂ →
      (∀ a b, a ∈ l₁ → b ∈ l₂ → R a b → S a b) → List.Forall₂ S l₁ l₂ := by
  intro l₁ l₂ hf
  induction hf with
  | nil => intro _; exact .nil
  | cons hab _ ih =>
    intro himp
    exact .cons (himp _ _ (List.mem_cons_self _ _) (List.mem_cons_self _ _) hab)
      (ih fun a b ha hb => himp a b (List.mem_cons_of_mem _ ha) (List.mem_cons_of_mem _ hb))

theorem allocCopies_contents (refs : List Nat) :
    ∀ h : Heap, (∀ r ∈ refs, r < h.rows.length) →
      List.Forall₂ (fun nr orig => (allocCopies h refs).1.lookup nr = h.lookup orig)
        (allocCopies h refs).2 refs := by
  induction refs with
  | nil => intro h _; exact .nil
  | cons x xs ih =>
    intro h hv
    have hx : x < h.rows.length := hv x (List.mem_cons_self _ _)
    have hlx : h.lookup x = some h.rows[x] := by
      simp [Heap.lookup, List.getElem?_eq_getElem hx]
    refine List.Forall₂.cons ?_ ?_
    · show (allocCopies (h.alloc ((h.lookup x).getD [])).1 xs).1.lookup h.rows.length =
        h.lookup x
      rw [allocCopies_lookup_lt xs _ _ (by rw [alloc_length]; exact Nat.lt_succ_self _)]
      have : (h.alloc ((h.lookup x).getD [])).1.lookup h.rows.length =
          some ((h.lookup x).getD []) := by
        simp [Heap.alloc, Heap.lookup]
      rw [this, hlx]
      rfl
    · have hv' : ∀ r ∈ xs, r < (h.alloc ((h.lookup x).getD [])).1.rows.length := by
        intro r hr
        rw [alloc_length]
        exact Nat.lt_succ_of_lt (hv r (List.mem_cons_of_mem _ hr))
      refine forall₂_imp_mem (ih _ hv') ?_
      intro a b _ hb hab
      show (allocCopies (h.alloc ((h.lookup x).getD [])).1 xs).1.lookup a = h.lookup b
      rw [hab]
      exact lookup_alloc_lt h _ b (hv b (List.mem_cons_of_mem _ hb))

theorem writeCell_lookup_ne (h : Heap) (r idx : Nat) (v : Cell) (r' : Nat)
    (hne : r ≠ r') : (h.writeCell r idx v).lookup r' = h.lookup r' := by
  simp only [Heap.writeCell, Heap.lookup]
  rw [List.getElem?_set_ne hne]

theorem applyWrites_lookup (ws : List CellWrite) :
    ∀ (h : Heap) (r : Nat), (∀ w ∈ ws, w.ref ≠ r) →
      (applyWrites h ws).lookup r = h.lookup r := by
  induction ws with
  | nil => intro h r _; rfl
  | cons w ws ih =>
    intro h r hw
    show (applyWrites (h.writeCell w.ref w.idx w.val) ws).lookup r = _
    rw [ih _ r fun w' hw' => hw w' (List.mem_cons_of_mem _ hw')]
    exact writeCell_lookup_ne h _ _ _ r (hw w (List.mem_cons_self _ _))

/-- C2: defensive copying in the sandboxed runner: the copy phase hands the
callable a fresh reference holding the same contents as the caller-owned header
row and fresh references holding the same contents as each data row, and
for every sequence of cell writes the callable performs against those
references (e.g. a transform that assigns to its arguments), every row of
every row of the original table of the caller is unchanged afterwards. -/
theorem defensive_copy_frame (h : Heap) (r0 : Nat) (rest : List Nat)
    (ws : List CellWrite)
    (hvalid : ∀ r ∈ r0 :: rest, r < h.rows.length)
    (hconf : ∀ w ∈ ws,
      w.ref = (executeCopyPhase h (r0 :: rest)).2.1 ∨
      w.ref ∈ (executeCopyPhase h (r0 :: rest)).2.2) :
    ((executeCopyPhase h (r0 :: rest)).1.lookup (executeCopyPhase h (r0 :: rest)).2.1 =
      h.lookup r0) ∧
    List.Forall₂
      (fun nr orig => (executeCopyPhase h (r0 :: rest)).1.lookup nr = h.lookup orig)
      (executeCopyPhase h (r0 :: rest)).2.2 rest ∧
    (∀ r ∈ r0 :: rest,
      (applyWrites (executeCopyPhase h (r0 :: rest)).1 ws).lookup r = h.lookup r) := by
  have hr0 : r0 < h.rows.length := hvalid r0 (List.mem_cons_self _ _)
  have hrest : ∀ r ∈ rest, r < h.rows.length :=
    fun r hr => hvalid r (List.mem_cons_of_mem _ hr)
  have hlr0 : h.lookup r0 = some h.rows[r0] := by
    simp [Heap.lookup, List.getElem?_eq_getElem hr0]
  have hv' : ∀ r ∈ rest, r < (h.alloc ((h.lookup r0).getD [])).1.rows.length := by
    intro r hr
    rw [alloc_length]
    exact Nat.lt_succ_of_lt (hrest r hr)
  refine ⟨?_, ?_, ?_⟩
  · show (allocCopies (h.alloc ((h.lookup r0).getD [])).1 rest).1.lookup h.rows.length =
      h.lookup r0
    rw [allocCopies_lookup_lt rest _ _ (by rw [alloc_length]; exact Nat.lt_succ_self _)]
    have : (h.alloc ((h.lookup r0).getD [])).1.lookup h.rows.length =
        some ((h.lookup r0).getD []) := by
      simp [Heap.alloc, Heap.lookup]
    rw [this, hlr0]
    rfl
  · refine forall₂_imp_mem (allocCopies_contents rest _ hv') ?_
    intro a b _ hb hab
    show (allocCopies (h.alloc ((h.lookup r0).getD [])).1 rest).1.lookup a = h.lookup b
    rw [hab]
    exact lookup_alloc_lt h _ b (hrest b hb)
  · intro r hr
    have hrlt : r < h.rows.length := hvalid r hr
    have hne : ∀ w ∈ ws, w.ref ≠ r := by
      intro w hw
      rcases hconf w hw with h1 | h2
      · rw [h1]
        show h.rows.length ≠ r
        exact Nat.ne_of_gt hrlt
      · have : (h.alloc ((h.lookup r0).getD [])).1.rows.length ≤ w.ref :=
          allocCopies_refs_ge rest _ _ h2
        rw [alloc_length] at this
        exact Nat.ne_of_gt (Nat.lt_of_lt_of_le (Nat.lt_succ_of_lt hrlt) this)
    rw [applyWrites_lookup ws _ r hne]
    show (allocCopies (h.alloc ((h.lookup r0).getD [])).1 rest).1.lookup r = h.lookup r
    rw [allocCopies_lookup_lt rest _ _ (by rw [alloc_length]; exact Nat.lt_succ_of_lt hrlt)]
    exact lookup_alloc_lt h _ r hrlt

/-- C2 witness: the frame property at a concrete two-row table where the
untrusted callable performs `rows[0][0] = "x"` (a write to the fresh copy
of the single data row, which is reference 3): the original data
row (reference 1) is unchanged. -/
theorem defensive_copy_frame_witness :
    (applyWrites (executeCopyPhase ⟨[[Cell.str "name"], [Cell.str "alice"]]⟩ [0, 1]).1
      [⟨3, 0, Cell.str "x"⟩]).lookup 1 =
      Heap.lookup ⟨[[Cell.str "name"], [Cell.str "alice"]]⟩ 1 :=
  (defensive_copy_frame ⟨[[Cell.str "name"], [Cell.str "alice"]]⟩ 0 [1]
      [⟨3, 0, Cell.str "x"⟩] (by decide) (by decide)).2.2 1 (by decide)

theorem currentOk_cycleTrace : ∀ (starts : List Nat) (c : Option Nat),
    currentOk c.toList (cycleTrace c starts) := by
  intro starts
  induction starts with
  | nil =>
    intro c
    cases c <;> simp [cycleTrace, currentOk, Option.toList]
  | cons id rest ih =>
    intro c
    cases c with
    | none =>
      show currentOk [] (NetAction.issue id :: cycleTrace (some id) rest)
      exact ⟨by simp, ih (some id)⟩
    | some i =>
      show currentOk [i] (NetAction.abort i :: NetAction.issue id ::
        cycleTrace (some id) rest)
      refine ⟨by simp, ?_⟩
      have herase : ([i] : List Nat).erase i = [] := by simp
      show currentOk (([i] : List Nat).erase i)
        (NetAction.issue id :: cycleTrace (some id) rest)
      rw [herase]
      exact ⟨by simp, ih (some id)⟩

theorem abort_mem_cycleTrace : ∀ (pre : List Nat) (c : Option Nat) (x y : Nat)
    (post : List Nat), NetAction.abort x ∈ cycleTrace c (pre ++ x :: y :: post) := by
  intro pre
  induction pre with
  | nil =>
    intro c x y post
    simp [cycleTrace, startCycleActions]
  | cons p ps ih =>
    intro c x y post
    show NetAction.abort x ∈
      startCycleActions c p ++ cycleTrace (some p) (ps ++ x :: y :: post)
    rw [List.mem_append]
    exact Or.inr (ih (some p) x y post)

/-- C7: single-current-call cancellation: starting a cycle with a previous
call in flight emits its abort before the new issue; along the whole trace
of any sequence of cycle starts at most one call is current; and any cycle
followed by a later cycle observes the cancelled outcome — never its own
reply. -/
theorem single_current_call :
    (∀ i j, startCycleActions (some i) j = [.abort i, .issue j]) ∧
    (∀ starts, currentOk [] (cycleTrace none starts)) ∧
    (∀ pre x y post (replyText : String),
      observedOutcome (cycleTrace none (pre ++ x :: y :: post)) x replyText =
        .cancelled) := by
  refine ⟨fun i j => rfl, fun starts => currentOk_cycleTrace starts none, ?_⟩
  intro pre x y post replyText
  unfold observedOutcome
  rw [if_pos (abort_mem_cycleTrace pre none x y post)]

end ExcelTransform
